import Mathlib

/-!
Shallow embedding of the inference-benchmark measurement and aggregation core
(`src/lib/benchmark-utils.ts`, `src/lib/config.ts`, the orchestrator route,
the mock route and the agent-race route), together with theorems settling the
frozen claims about it.

JavaScript numbers are embedded as rationals (`ℚ`); `performance.now()` is an
explicit time parameter threaded through each function that calls it.  JS
truthiness on `number | null` values (`x ? a : b`) is embedded literally:
`null` and `0` are falsy.
-/

namespace Bench

/-- JS `Math.round`: round half away from zero for positives; on all finite
inputs `Math.round x = ⌊x + 0.5⌋`. -/
def jsRound (q : ℚ) : ℤ := ⌊q + 1/2⌋

/-- Source `roundToOneDecimal` from `benchmark-utils.ts`: `Math.round(value * 10) / 10`. -/
def roundToOneDecimal (value : ℚ) : ℚ := (jsRound (value * 10) : ℚ) / 10

/-- JS truthiness of a `number | null` value: `null`, `0` (and `NaN`, absent
from this embedding) are falsy. -/
def jsTruthyNum : Option ℚ → Bool
  | none => false
  | some q => q != 0

/-- Constant `DEFAULTS.CHARS_PER_TOKEN` from `config.ts`. -/
def CHARS_PER_TOKEN : ℕ := 4

/-- Constant `DEFAULTS.TOKEN_THRESHOLD_FOR_METRICS` from `config.ts`. -/
def TOKEN_THRESHOLD_FOR_METRICS : ℕ := 100

/-- Constant `DEFAULTS.MAX_TOKENS` from `config.ts`. -/
def MAX_TOKENS : ℚ := 256

/-- Type `BenchmarkResult` from `lib/types.ts`.  Optional fields are `Option`;
an absent field is `none`. -/
structure BenchmarkResult where
  provider : String
  model : String
  ttft_ms : ℚ
  tokens_per_second : ℚ
  total_latency_ms : ℚ
  token_count : ℚ
  time_to_100_tokens_ms : Option ℚ := none
  throughput_first_100 : Option ℚ := none
  error : Option String := none
deriving Repr, DecidableEq

/-- Type `StreamMetrics` from `benchmark-utils.ts`. -/
structure StreamMetrics where
  startTime : ℚ
  firstTokenTime : Option ℚ
  timeToHundredTokens : Option ℚ
  tokenCount : ℕ
  fullResponse : String
deriving Repr, DecidableEq

/-- Source `createStreamMetrics`; `now` is the value of `performance.now()` at the call. -/
def createStreamMetrics (now : ℚ) : StreamMetrics :=
  { startTime := now
    firstTokenTime := none
    timeToHundredTokens := none
    tokenCount := 0
    fullResponse := "" }

/-- Source `estimateTokenCount`: `Math.ceil(text.length / CHARS_PER_TOKEN)`,
i.e. ceiling division of the length by 4. -/
def estimateTokenCount (text : String) : ℕ :=
  (text.length + (CHARS_PER_TOKEN - 1)) / CHARS_PER_TOKEN

/-- Source `updateMetrics`; `now` is the value `performance.now()` returns during this
call.  Mutation of the record is embedded as returning the updated record. -/
def updateMetrics (metrics : StreamMetrics) (content : String) (now : ℚ) : StreamMetrics :=
  let metrics :=
    if metrics.firstTokenTime = none then
      { metrics with firstTokenTime := some now }
    else metrics
  let full := metrics.fullResponse ++ content
  let tc := estimateTokenCount full
  let metrics := { metrics with fullResponse := full, tokenCount := tc }
  if tc ≥ TOKEN_THRESHOLD_FOR_METRICS ∧ metrics.timeToHundredTokens = none then
    { metrics with timeToHundredTokens := some (now - metrics.startTime) }
  else metrics

/-- Return type of `calculateBenchmarkMetrics`. -/
structure CalculatedMetrics where
  ttftMs : ℚ
  totalLatencyMs : ℚ
  tokensPerSecond : ℚ
  throughputFirst100 : Option ℚ
deriving Repr, DecidableEq

/-- Source `calculateBenchmarkMetrics`; `endTime` is the `performance.now()` value read
at the start of the call.  The conditionals `metrics.firstTokenTime ? ... : ...`
and `metrics.timeToHundredTokens ? ... : null` use JS truthiness, so a recorded
timestamp equal to `0` takes the falsy branch. -/
def calculateBenchmarkMetrics (metrics : StreamMetrics) (endTime : ℚ) : CalculatedMetrics :=
  let ttftMs :=
    if jsTruthyNum metrics.firstTokenTime then
      metrics.firstTokenTime.getD 0 - metrics.startTime
    else endTime - metrics.startTime
  let totalLatencyMs := endTime - metrics.startTime
  let tokensPerSecond :=
    if metrics.tokenCount > 0 ∧ totalLatencyMs > 0 then
      ((metrics.tokenCount : ℚ) / totalLatencyMs) * 1000
    else 0
  let throughputFirst100 :=
    if jsTruthyNum metrics.timeToHundredTokens then
      some ((TOKEN_THRESHOLD_FOR_METRICS : ℚ) / (metrics.timeToHundredTokens.getD 0 / 1000))
    else none
  { ttftMs := ttftMs
    totalLatencyMs := totalLatencyMs
    tokensPerSecond := tokensPerSecond
    throughputFirst100 := throughputFirst100 }

/-- Source `buildSuccessResult`; `endTime` is the `performance.now()` value read inside
the nested `calculateBenchmarkMetrics` call. -/
def buildSuccessResult (provider model : String) (metrics : StreamMetrics)
    (endTime : ℚ) : BenchmarkResult :=
  let calculated := calculateBenchmarkMetrics metrics endTime
  { provider := provider
    model := model
    ttft_ms := (jsRound calculated.ttftMs : ℚ)
    tokens_per_second := roundToOneDecimal calculated.tokensPerSecond
    total_latency_ms := (jsRound calculated.totalLatencyMs : ℚ)
    token_count := (metrics.tokenCount : ℚ)
    time_to_100_tokens_ms :=
      if jsTruthyNum metrics.timeToHundredTokens then
        some (jsRound (metrics.timeToHundredTokens.getD 0) : ℚ)
      else none
    throughput_first_100 :=
      if jsTruthyNum calculated.throughputFirst100 then
        some (roundToOneDecimal (calculated.throughputFirst100.getD 0))
      else none
    error := none }

/-- Source `buildErrorResult`; `now` is the `performance.now()` value read inside the
call.  The `unknown` error value is embedded as `Option String`: `some msg` for
an `Error` with message `msg`, `none` for any non-`Error` value (which the code
maps to the string `"Unknown error"`). -/
def buildErrorResult (provider model : String) (error : Option String)
    (startTime now : ℚ) : BenchmarkResult :=
  let totalLatencyMs := now - startTime
  let errorMessage := error.getD "Unknown error"
  { provider := provider
    model := model
    ttft_ms := 0
    tokens_per_second := 0
    total_latency_ms := (jsRound totalLatencyMs : ℚ)
    token_count := 0
    error := some errorMessage }

/-- JS truthiness of a `string | undefined` value: `undefined` and `""` are falsy. -/
def jsTruthyStr : Option String → Bool
  | none => false
  | some s => s != ""

/-- JS `string || default` on a possibly-absent string: `undefined` and `""`
take the default. -/
def jsStrOr (v : Option String) (dflt : String) : String :=
  if jsTruthyStr v then v.getD "" else dflt

/-- JS `number || default` on a possibly-absent number: `undefined` and `0`
take the default. -/
def jsNumOr (v : Option ℚ) (dflt : ℚ) : ℚ :=
  if jsTruthyNum v then v.getD 0 else dflt

/-- Keys of `PROVIDER_ENDPOINTS` in the orchestrator route, in `Object.keys`
insertion order. -/
def PROVIDER_ENDPOINTS : List String := ["cerebras", "fireworks", "groq"]

/-- The body of one element of `selectedProviders.map(...)` in the orchestrator:
an unknown provider yields an error-only result immediately; otherwise the
outcome of the sub-request fetch (`.ok` its parsed `BenchmarkResult`, `.error`
the thrown error's message) is returned, a throw being caught and converted to
an error-only result keyed by the provider identifier.  Since every branch
returns normally, `Promise.allSettled` sees only fulfilled promises and its
mapping step is the identity on these values. -/
def benchmarkOne (fetchResult : String → Except String BenchmarkResult)
    (provider : String) : BenchmarkResult :=
  if provider ∉ PROVIDER_ENDPOINTS then
    { provider := provider
      model := "unknown"
      ttft_ms := 0
      tokens_per_second := 0
      total_latency_ms := 0
      token_count := 0
      error := some ("Unknown provider: " ++ provider) }
  else
    match fetchResult provider with
    | .ok result => result
    | .error e =>
      { provider := provider
        model := "unknown"
        ttft_ms := 0
        tokens_per_second := 0
        total_latency_ms := 0
        token_count := 0
        error := some e }

/-- The comparator of `results.sort` in the orchestrator, as a boolean
less-or-equal (`compare a b ≤ 0`): `a.error && !b.error` returns `1`,
`!a.error && b.error` returns `-1`, and otherwise the sign of
`a.ttft_ms - b.ttft_ms` decides.  `a.error` is tested with JS string
truthiness, so an absent error and an empty-string error are both falsy. -/
def resultsLE (a b : BenchmarkResult) : Bool :=
  if jsTruthyStr a.error ∧ ¬ jsTruthyStr b.error then false
  else if ¬ jsTruthyStr a.error ∧ jsTruthyStr b.error then true
  else a.ttft_ms ≤ b.ttft_ms

/-- The orchestrator's `results.sort(...)`: JS `Array.prototype.sort` is
stable, and `resultsLE` is a total preorder, so the result coincides with a
stable merge sort under `resultsLE`. -/
def sortResults (rs : List BenchmarkResult) : List BenchmarkResult :=
  rs.mergeSort resultsLE

/-- The provider list the orchestrator actually benchmarks:
`providers && providers.length > 0 ? providers : Object.keys(PROVIDER_ENDPOINTS)`
(an absent or empty array selects every known provider). -/
def selectedProvidersOf (providersArg : Option (List String)) : List String :=
  match providersArg with
  | some ps => if ps.length > 0 then ps else PROVIDER_ENDPOINTS
  | none => PROVIDER_ENDPOINTS

/-- Response of the orchestrator route (the catch-all 500 branch is unreachable
in this embedding because every embedded step is total). -/
inductive BenchResponse where
  | badRequest (error : String)
  | ok (results : List BenchmarkResult) (prompt : String) (max_tokens : ℚ)
deriving Repr, DecidableEq

/-- Full outcome of one orchestrator invocation: the HTTP response together
with the list of providers whose per-provider endpoint was actually fetched
(instrumentation used to state that the 400 path performs no fetch). -/
structure OrchestratorOutcome where
  response : BenchResponse
  fetched : List String
deriving Repr, DecidableEq

/-- Route `POST /api/benchmark` (the orchestrator, `src/unnamed/part_001`).  The
request body is embedded field-wise (`prompt`, `max_tokens`, `providers`, each
`none` when absent); `fetchResult` gives the settled outcome of the
sub-request `fetch` + `response.json()` for each provider. -/
def benchmarkPOST (prompt : Option String) (max_tokens : Option ℚ)
    (providersArg : Option (List String))
    (fetchResult : String → Except String BenchmarkResult) : OrchestratorOutcome :=
  if ¬ jsTruthyStr prompt then
    { response := .badRequest "prompt is required", fetched := [] }
  else
    let selectedProviders := selectedProvidersOf providersArg
    let results := selectedProviders.map (benchmarkOne fetchResult)
    { response := .ok (sortResults results) (prompt.getD "") (jsNumOr max_tokens MAX_TOKENS)
      fetched := selectedProviders.filter (· ∈ PROVIDER_ENDPOINTS) }

/-- Results carried by a `BenchResponse` (empty for the 400 branch). -/
def responseResults : BenchResponse → List BenchmarkResult
  | .ok rs _ _ => rs
  | .badRequest _ => []

/-- Keys of the `providers` registry (`lib/providers.ts`), in insertion order. -/
def providersKeys : List String := ["cerebras", "fireworks", "groq"]

/-- Lookup `providers[id].model` from `lib/providers.ts`. -/
def providerModel : String → Option String
  | "cerebras" => some "llama-3.3-70b"
  | "fireworks" => some "accounts/fireworks/models/llama-v3p3-70b-instruct"
  | "groq" => some "llama-3.3-70b-versatile"
  | _ => none

/-- One entry of `MOCK_BENCHMARKS` (`config.ts`). -/
structure MockFixture where
  ttft_ms : ℚ
  tokens_per_second : ℚ
  total_latency_ms : ℚ
  token_count : ℚ
  time_to_100_tokens_ms : ℚ
  throughput_first_100 : ℚ
deriving Repr, DecidableEq

/-- Table `MOCK_BENCHMARKS[providerId]` from `config.ts`. -/
def MOCK_BENCHMARKS : String → Option MockFixture
  | "cerebras" => some ⟨52, 2156.3, 127, 274, 98, 1020.4⟩
  | "groq" => some ⟨186, 512.7, 534, 274, 382, 261.8⟩
  | "fireworks" => some ⟨245, 89.4, 3065, 274, 1340, 74.6⟩
  | _ => none

/-- Constants `MOCK_SETTINGS` from `config.ts` (the fields the mock route reads). -/
def TTFT_VARIANCE_PERCENT : ℚ := 15
def TPS_VARIANCE_PERCENT : ℚ := 10
def LATENCY_VARIANCE_PERCENT : ℚ := 12
def TOKEN_COUNT_VARIANCE : ℚ := 10

/-- Source `addVariance` from `benchmark-utils.ts`; `r` is the `Math.random()` draw
(a value in `[0,1)`). -/
def addVariance (value variancePercent r : ℚ) : ℚ :=
  let variance := value * (variancePercent / 100)
  let delta := (r - 1/2) * 2 * variance
  roundToOneDecimal (value + delta)

/-- One iteration of the mock route's loop body for a provider that has a
fixture: builds the simulated result, consuming `Math.random()` draws
`rand k, rand (k+1), ...` in program order (`simulateLatency`, then the object
literal fields top to bottom) and returning the next unused index.  Both
optional fields use JS truthiness on the fixture value. -/
def mockResult (providerId : String) (fx : MockFixture) (rand : ℕ → ℚ)
    (k : ℕ) : BenchmarkResult × ℕ :=
  -- simulateLatency draws one random for the delay; it does not affect fields
  let k := k + 1
  let r : BenchmarkResult :=
    { provider := providerId
      model := jsStrOr (providerModel providerId) "unknown"
      ttft_ms := addVariance fx.ttft_ms TTFT_VARIANCE_PERCENT (rand k)
      tokens_per_second := addVariance fx.tokens_per_second TPS_VARIANCE_PERCENT (rand (k + 1))
      total_latency_ms := addVariance fx.total_latency_ms LATENCY_VARIANCE_PERCENT (rand (k + 2))
      token_count := fx.token_count +
        (⌊rand (k + 3) * (TOKEN_COUNT_VARIANCE * 2) - TOKEN_COUNT_VARIANCE⌋ : ℤ)
      time_to_100_tokens_ms :=
        if fx.time_to_100_tokens_ms != 0 then
          some (addVariance fx.time_to_100_tokens_ms LATENCY_VARIANCE_PERCENT (rand (k + 4)))
        else none
      throughput_first_100 :=
        if fx.throughput_first_100 != 0 then
          some (addVariance fx.throughput_first_100 TPS_VARIANCE_PERCENT
            (rand (if fx.time_to_100_tokens_ms != 0 then k + 5 else k + 4)))
        else none
      error := none }
  let consumed :=
    4 + (if fx.time_to_100_tokens_ms != 0 then 1 else 0) +
      (if fx.throughput_first_100 != 0 then 1 else 0)
  (r, k + consumed)

/-- The provider list the mock route iterates over:
`selectedProviders && selectedProviders.length > 0 ? selectedProviders : Object.keys(providers)`. -/
def mockProvidersToTest : Option (List String) → List String
  | some ps => if ps.length > 0 then ps else providersKeys
  | none => providersKeys

/-- One iteration of the mock route's `for` loop: a provider without a mock
fixture is skipped (`continue`); otherwise its simulated result is appended
and the random-draw cursor advances. -/
def mockStep (rand : ℕ → ℚ) (acc : List BenchmarkResult × ℕ)
    (providerId : String) : List BenchmarkResult × ℕ :=
  match MOCK_BENCHMARKS providerId with
  | none => acc
  | some fx =>
    let (r, k) := mockResult providerId fx rand acc.2
    (acc.1 ++ [r], k)

/-- Route `POST /api/benchmark/mock` (`mock/route.ts`): providers without a fixture
are skipped by `continue`; the collected results are sorted ascending by
`ttft_ms` (plain `a.ttft_ms - b.ttft_ms` comparator, embedded as a stable
merge sort). -/
def mockPOST (selectedProviders : Option (List String)) (rand : ℕ → ℚ) :
    List BenchmarkResult :=
  let results := ((mockProvidersToTest selectedProviders).foldl (mockStep rand) ([], 0)).1
  results.mergeSort (fun a b => a.ttft_ms ≤ b.ttft_ms)

/-- Constant `AGENT_RACE_CONFIG.OUTPUT_PREVIEW_LENGTH` from `config.ts`. -/
def OUTPUT_PREVIEW_LENGTH : ℕ := 150

/-- Names of the 5 agent-race steps (`STEPS[i].name`). -/
def stepName : ℕ → String
  | 0 => "Research"
  | 1 => "Summarize"
  | 2 => "Draft"
  | 3 => "Critique"
  | 4 => "Revise"
  | _ => ""

/-- Prompt template of step `i` (`STEPS[i].prompt`) applied to its input. -/
def stepPrompt : ℕ → String → String
  | 0, input => "Find 3 key facts about " ++ input ++
      "\x27s business model, products, and recent news."
  | 1, input => "Summarize this research into exactly 3 concise bullet points:\n\n" ++ input
  | 2, input => "Write a 3-paragraph cold outreach email based on:\n\n" ++ input
  | 3, input => "Critique this email. List 3 specific improvements:\n\n" ++ input
  | 4, input => "Revise the email with these improvements:\n\n" ++ input
  | _, _ => ""

/-- The truncated output preview sent with a `complete` event:
`content.slice(0, 150) + "..."` when longer than 150 characters. -/
def outputPreview (content : String) : String :=
  if content.length > OUTPUT_PREVIEW_LENGTH then
    content.take OUTPUT_PREVIEW_LENGTH ++ "..."
  else content

/-- One JSON event written to the agent-race SSE stream. -/
inductive RaceEvent where
  | running (step : ℕ) (name : String)
  | complete (step : ℕ) (name : String) (latency_ms : ℤ) (output_preview : String)
  | error (step : ℕ) (name : String) (msg : String)
  | terminal (total_latency_ms : ℤ) (has_error : Bool)
deriving Repr, DecidableEq

/-- The agent-race step loop (`for (let i = 0; i < STEPS.length; i++)` in the
stream's `start` callback), run over the remaining step indices.  `call i p`
is the settled outcome of `callProvider` at step `i` with prompt `p`
(`.error` when it throws); `lat i` is the measured, already-rounded latency
`Math.round(performance.now() - startTime)` of step `i`.  Returns the step
events emitted, the final `totalLatency`, and the final `hasError`; a failed
call emits the `error` event and breaks. -/
def raceGo (call : ℕ → String → Except String String) (lat : ℕ → ℤ)
    (company : String) : List ℕ → String → ℤ → List RaceEvent × ℤ × Bool
  | [], _, totalLatency => ([], totalLatency, false)
  | i :: rest, previousOutput, totalLatency =>
    let name := stepName i
    let prompt := if i = 0 then stepPrompt i company else stepPrompt i previousOutput
    match call i prompt with
    | .ok content =>
      let latency := lat i
      let (evs, tot, hasError) :=
        raceGo call lat company rest content (totalLatency + latency)
      (.running (i + 1) name ::
        .complete (i + 1) name latency (outputPreview content) :: evs, tot, hasError)
    | .error msg =>
      ([.running (i + 1) name, .error (i + 1) name msg], totalLatency, true)

/-- Route `POST /api/agent-race` stream body (`src/unnamed/part_000`): the step loop,
then the unconditional terminal `{complete, total_latency_ms, has_error}`
event, then `controller.close()` in the `finally` block.  The first component
is the full ordered event sequence; the second counts `close()` calls. -/
def runRace (call : ℕ → String → Except String String) (lat : ℕ → ℤ)
    (company : String) : List RaceEvent × ℕ :=
  let (evs, tot, hasError) := raceGo call lat company (List.range 5) company 0
  (evs ++ [.terminal tot hasError], 1)

/-- The prompt actually fed to step `j` on a run whose step outputs so far are
`contents 0, ..., contents (j-1)`: step `0` consumes the company name, step
`j+1` consumes the raw output of step `j`. -/
def chainPrompt (company : String) (contents : ℕ → String) (j : ℕ) : String :=
  if j = 0 then stepPrompt 0 company else stepPrompt j (contents (j - 1))

/-- JSON values, as produced by `JSON.parse` (numbers embedded as rationals). -/
inductive Json where
  | null : Json
  | bool (b : Bool) : Json
  | num (q : ℚ) : Json
  | str (s : String) : Json
  | arr (elements : List Json) : Json
  | obj (members : List (String × Json)) : Json
deriving Repr

/-- JSON insignificant whitespace characters. -/
def isJsonWs (c : Char) : Bool :=
  c = ' ' || c = '\t' || c = '\n' || c = '\r'

/-- Skip leading JSON whitespace. -/
def skipWs : List Char → List Char
  | [] => []
  | c :: cs => if isJsonWs c then skipWs cs else c :: cs

/-- Value of one hexadecimal digit. -/
def hexVal (c : Char) : Option ℕ :=
  if '0' ≤ c ∧ c ≤ '9' then some (c.toNat - 48)
  else if 'a' ≤ c ∧ c ≤ 'f' then some (c.toNat - 87)
  else if 'A' ≤ c ∧ c ≤ 'F' then some (c.toNat - 55)
  else none

/-- Parse the body of a JSON string literal after its opening quote; returns
the decoded string and the input remaining after the closing quote.  Raw
control characters and unknown escapes are rejected, as by `JSON.parse`. -/
def parseStringBody : List Char → Option (String × List Char)
  | [] => none
  | '"' :: rest => some ("", rest)
  | '\\' :: 'u' :: h1 :: h2 :: h3 :: h4 :: rest => do
    let v1 ← hexVal h1
    let v2 ← hexVal h2
    let v3 ← hexVal h3
    let v4 ← hexVal h4
    let code := ((v1 * 16 + v2) * 16 + v3) * 16 + v4
    let (s, r) ← parseStringBody rest
    return (String.singleton (Char.ofNat code) ++ s, r)
  | '\\' :: e :: rest => do
    let c : Char ←
      match e with
      | '"' => some '"'
      | '\\' => some '\\'
      | '/' => some '/'
      | 'b' => some '\x08'
      | 'f' => some '\x0c'
      | 'n' => some '\n'
      | 'r' => some '\r'
      | 't' => some '\t'
      | _ => none
    let (s, r) ← parseStringBody rest
    return (String.singleton c ++ s, r)
  | c :: rest =>
    if c.toNat < 32 then none
    else (parseStringBody rest).map fun sr => (String.singleton c ++ sr.1, sr.2)

/-- Split off a maximal run of decimal digits. -/
def takeDigits : List Char → List ℕ × List Char
  | [] => ([], [])
  | c :: cs =>
    if '0' ≤ c ∧ c ≤ '9' then
      let (ds, rest) := takeDigits cs
      ((c.toNat - 48) :: ds, rest)
    else ([], c :: cs)

/-- Value of a digit run read most-significant first. -/
def digitsVal (ds : List ℕ) : ℕ := ds.foldl (fun acc d => acc * 10 + d) 0

/-- Parse a JSON number (grammar `-? int frac? exp?`, a leading `0` not
followed by further integer digits), returning its exact rational value. -/
def parseNumber (cs : List Char) : Option (ℚ × List Char) := do
  let (sign, cs) : ℚ × List Char :=
    match cs with
    | '-' :: rest => (-1, rest)
    | _ => (1, cs)
  let (intDigits, cs) ←
    match cs with
    | '0' :: rest => some ([0], rest)
    | c :: rest =>
      if '1' ≤ c ∧ c ≤ '9' then
        let (ds, r) := takeDigits rest
        some ((c.toNat - 48) :: ds, r)
      else none
    | [] => none
  let (fracDigits, cs) ←
    match cs with
    | '.' :: rest =>
      match takeDigits rest with
      | ([], _) => none
      | (ds, r) => some (ds, r)
    | _ => some ([], cs)
  let (expVal, cs) ←
    match cs with
    | 'e' :: rest | 'E' :: rest =>
      let (expSign, rest) : ℤ × List Char :=
        match rest with
        | '+' :: r => (1, r)
        | '-' :: r => (-1, r)
        | _ => (1, rest)
      match takeDigits rest with
      | ([], _) => none
      | (ds, r) => some (expSign * (digitsVal ds : ℤ), r)
    | _ => some ((0 : ℤ), cs)
  let mantissa : ℚ :=
    (digitsVal intDigits : ℚ) + (digitsVal fracDigits : ℚ) / (10 : ℚ) ^ fracDigits.length
  return (sign * mantissa * (10 : ℚ) ^ expVal, cs)

mutual

/-- Parse one JSON value (fueled recursion; the top-level entry point supplies
ample fuel). -/
def parseValue : ℕ → List Char → Option (Json × List Char)
  | 0, _ => none
  | fuel + 1, cs =>
    match skipWs cs with
    | 'n' :: 'u' :: 'l' :: 'l' :: rest => some (.null, rest)
    | 't' :: 'r' :: 'u' :: 'e' :: rest => some (.bool true, rest)
    | 'f' :: 'a' :: 'l' :: 's' :: 'e' :: rest => some (.bool false, rest)
    | '"' :: rest => (parseStringBody rest).map fun sr => (.str sr.1, sr.2)
    | '\x7b' :: rest =>
      (match skipWs rest with
       | '\x7d' :: rest2 => some (.obj [], rest2)
       | _ => (parseMembers fuel (skipWs rest)).map fun mr => (.obj mr.1, mr.2))
    | '[' :: rest =>
      (match skipWs rest with
       | ']' :: rest2 => some (.arr [], rest2)
       | _ => (parseElements fuel (skipWs rest)).map fun er => (.arr er.1, er.2))
    | rest => (parseNumber rest).map fun nr => (.num nr.1, nr.2)

/-- Parse the comma-separated elements of a non-empty JSON array, up to and
including the closing bracket. -/
def parseElements : ℕ → List Char → Option (List Json × List Char)
  | 0, _ => none
  | fuel + 1, cs => do
    let (v, rest) ← parseValue fuel cs
    match skipWs rest with
    | ',' :: rest2 => (parseElements fuel rest2).map fun er => (v :: er.1, er.2)
    | ']' :: rest2 => some ([v], rest2)
    | _ => none

/-- Parse the comma-separated members of a non-empty JSON object, up to and
including the closing brace. -/
def parseMembers : ℕ → List Char → Option (List (String × Json) × List Char)
  | 0, _ => none
  | fuel + 1, cs =>
    match skipWs cs with
    | '"' :: rest => do
      let (key, rest1) ← parseStringBody rest
      match skipWs rest1 with
      | ':' :: rest2 => do
        let (v, rest3) ← parseValue fuel rest2
        match skipWs rest3 with
        | ',' :: rest4 => (parseMembers fuel rest4).map fun mr => ((key, v) :: mr.1, mr.2)
        | '\x7d' :: rest4 => some ([(key, v)], rest4)
        | _ => none
      | _ => none
    | _ => none

end

/-- Model of `JSON.parse` on a whole string: `some` the parsed value, `none` when the
parse throws.  The fuel bounds the recursion depth; `2·length + 2` exceeds the
number of parser steps possible on the input. -/
def jsonParse (s : String) : Option Json :=
  match parseValue (2 * s.length + 2) s.data with
  | some (v, rest) => if (skipWs rest).isEmpty then some v else none
  | none => none

/-- JS property access `v?.key` on a parsed JSON value: defined only on
objects; duplicate keys resolve to the last occurrence, as in `JSON.parse`. -/
def getProp : Json → String → Option Json
  | .obj kvs, key => (kvs.reverse.find? fun kv => kv.1 == key).map fun kv => kv.2
  | _, _ => none

/-- JS element access `v?.[i]` on a parsed JSON value, defined on arrays. -/
def getIdx : Json → ℕ → Option Json
  | .arr xs, i => xs.get? i
  | _, _ => none

/-- JS truthiness of a JSON value: `null`, `false`, `0` and `""` are falsy;
arrays and objects are truthy. -/
def jsTruthy : Json → Bool
  | .null => false
  | .bool b => b
  | .num q => q != 0
  | .str s => s != ""
  | .arr _ => true
  | .obj _ => true

/-- JS `String.prototype.trim`, embedded at the character-list level: strip
whitespace from both ends. -/
def jsTrim (s : String) : String :=
  String.mk (((s.data.dropWhile Char.isWhitespace).reverse.dropWhile
    Char.isWhitespace).reverse)

/-- Source `parseSSELine` from `benchmark-utils.ts`.  `trimmed.startsWith("data: ")`
and `trimmed.slice(6)` are embedded on the underlying character list.
Returns the extracted delta content (`some`, when
`parsed.choices?.[0]?.delta?.content` is truthy) or `none` for: an
empty/non-`data: ` line, the `[DONE]` sentinel, a JSON parse failure (the
`catch`), a missing field path, or a falsy content value (`... || null`). -/
def parseSSELine (line : String) : Option Json :=
  if ¬ jsTruthyStr (some (jsTrim line)) ∨
      ¬ List.isPrefixOf "data: ".data (jsTrim line).data then none
  else if String.mk ((jsTrim line).data.drop 6) = "[DONE]" then none
  else
    match jsonParse (String.mk ((jsTrim line).data.drop 6)) with
    | none => none
    | some parsed =>
      match (((getProp parsed "choices").bind fun c => getIdx c 0).bind
          fun c => getProp c "delta").bind fun d => getProp d "content" with
      | none => none
      | some c => if jsTruthy c then some c else none

/-- Apply a sequence of `updateMetrics` calls to an accumulator; each element
pairs the content chunk with the `performance.now()` value during that call. -/
def runUpdates (m : StreamMetrics) (chunks : List (String × ℚ)) : StreamMetrics :=
  chunks.foldl (fun acc c => updateMetrics acc c.1 c.2) m

/-- Internal consistency of an accumulator state: the token count is the
estimate recomputed from the accumulated text, and a recorded 100-token
timestamp implies the threshold was met.  Holds for every state reachable from
`createStreamMetrics` by `updateMetrics` calls. -/
def MetricsInv (m : StreamMetrics) : Prop :=
  m.tokenCount = estimateTokenCount m.fullResponse ∧
  (m.timeToHundredTokens ≠ none → TOKEN_THRESHOLD_FOR_METRICS ≤ m.tokenCount)

/-- Modelled from the spec (§4.1 `finalize`), for comparison with the code's
`calculateBenchmarkMetrics`: time-to-first-token is `firstTokenTime − start`
whenever a first token was recorded, else `now − start`; total latency is
`now − start`; tokens-per-second is `tokenCount / totalLatencySeconds`
(`0` if no tokens or zero latency); throughput-for-first-100 is
`100 / (timeToHundredTokens in seconds)`, `null` only if the threshold was
never reached. -/
def specFinalize (metrics : StreamMetrics) (endTime : ℚ) : CalculatedMetrics :=
  let totalLatencyMs := endTime - metrics.startTime
  { ttftMs :=
      match metrics.firstTokenTime with
      | some t => t - metrics.startTime
      | none => endTime - metrics.startTime
    totalLatencyMs := totalLatencyMs
    tokensPerSecond :=
      if metrics.tokenCount ≠ 0 ∧ totalLatencyMs ≠ 0 then
        (metrics.tokenCount : ℚ) / (totalLatencyMs / 1000)
      else 0
    throughputFirst100 :=
      match metrics.timeToHundredTokens with
      | some t => some ((TOKEN_THRESHOLD_FOR_METRICS : ℚ) / (t / 1000))
      | none => none }

/-- A sample error-free result, used as concrete input in witnesses. -/
def sampleOk (name : String) (ttft : ℚ) : BenchmarkResult :=
  { provider := name
    model := "llama-3.3-70b"
    ttft_ms := ttft
    tokens_per_second := 100
    total_latency_ms := 500
    token_count := 50 }

/-- A sample error result, used as concrete input in witnesses. -/
def sampleErr (name : String) (ttft : ℚ) : BenchmarkResult :=
  { provider := name
    model := "unknown"
    ttft_ms := ttft
    tokens_per_second := 0
    total_latency_ms := 0
    token_count := 0
    error := some "boom" }

/-- A sample result whose error field is present but holds the empty string —
reachable through `buildErrorResult` from an `Error` whose `message` is empty —
used as concrete input in counterexamples. -/
def sampleEmptyErr (name : String) (ttft : ℚ) : BenchmarkResult :=
  { provider := name
    model := "unknown"
    ttft_ms := ttft
    tokens_per_second := 0
    total_latency_ms := 0
    token_count := 0
    error := some "" }

/-! ## Theorems -/

/-- C1 (counterexample): the claim that every result built by the failure path
has all numeric metric fields zero is false: `buildErrorResult` stores the
rounded elapsed time in `total_latency_ms`, so at `startTime = 0`,
`now = 100` that field is `100`, not `0`. -/
theorem buildErrorResult_not_all_zero :
    ¬ (∀ (p m : String) (e : Option String) (st now : ℚ),
        (buildErrorResult p m e st now).error ≠ none ∧
        (buildErrorResult p m e st now).ttft_ms = 0 ∧
        (buildErrorResult p m e st now).tokens_per_second = 0 ∧
        (buildErrorResult p m e st now).total_latency_ms = 0 ∧
        (buildErrorResult p m e st now).token_count = 0 ∧
        (buildErrorResult p m e st now).time_to_100_tokens_ms = none ∧
        (buildErrorResult p m e st now).throughput_first_100 = none) := by
  intro h
  have h4 := (h "cerebras" "llama-3.3-70b" none 0 100).2.2.2.1
  norm_num [buildErrorResult, jsRound] at h4

/-- C1 (amended): every result built by `buildErrorResult` carries the error
message; `ttft_ms`, `tokens_per_second` and `token_count` are zero and the two
optional fields are absent; `total_latency_ms` is the rounded elapsed time
`Math.round(now - startTime)` (zero only when the elapsed time rounds to
zero), not zero in general. -/
theorem buildErrorResult_spec (p m : String) (e : Option String) (st now : ℚ) :
    (buildErrorResult p m e st now).error = some (e.getD "Unknown error") ∧
    (buildErrorResult p m e st now).ttft_ms = 0 ∧
    (buildErrorResult p m e st now).tokens_per_second = 0 ∧
    (buildErrorResult p m e st now).token_count = 0 ∧
    (buildErrorResult p m e st now).time_to_100_tokens_ms = none ∧
    (buildErrorResult p m e st now).throughput_first_100 = none ∧
    (buildErrorResult p m e st now).total_latency_ms = (jsRound (now - st) : ℚ) := by
  simp [buildErrorResult]

/-- C8: a `POST /benchmark` request whose body has no `prompt` field gets the
400 response with body `error: "prompt is required"`, and no per-provider
endpoint is fetched (the `fetched` instrumentation list is empty), whatever
the other fields and the per-provider outcomes are. -/
theorem benchmarkPOST_missing_prompt (mt : Option ℚ) (provs : Option (List String))
    (f : String → Except String BenchmarkResult) :
    benchmarkPOST none mt provs f =
      { response := .badRequest "prompt is required", fetched := [] } := by
  rfl

set_option maxRecDepth 40000 in
/-- C4 (counterexample): the claimed `finalize` contract fails on the code.
The state below is reachable (one 400-character chunk arriving at the same
`performance.now()` tick as `create` records `timeToHundredTokens = 0` and
`firstTokenTime = 0`), yet `calculateBenchmarkMetrics` differs from the
spec-modelled finalize there: JS truthiness makes it return
`throughputFirst100 = none` although the 100-token threshold was reached,
and an `endTime`-based ttft although a first token was recorded. -/
theorem calculateBenchmarkMetrics_truthiness_cex :
    runUpdates (createStreamMetrics 0) [(String.mk (List.replicate 400 'x'), 0)] =
      { startTime := 0, firstTokenTime := some 0, timeToHundredTokens := some 0,
        tokenCount := 100, fullResponse := String.mk (List.replicate 400 'x') } ∧
    calculateBenchmarkMetrics
        { startTime := 0, firstTokenTime := some 0, timeToHundredTokens := some 0,
          tokenCount := 100, fullResponse := String.mk (List.replicate 400 'x') } 10 ≠
      specFinalize
        { startTime := 0, firstTokenTime := some 0, timeToHundredTokens := some 0,
          tokenCount := 100, fullResponse := String.mk (List.replicate 400 'x') } 10 := by
  constructor
  · simp only [runUpdates, List.foldl_cons, List.foldl_nil, updateMetrics, createStreamMetrics,
      estimateTokenCount, CHARS_PER_TOKEN, TOKEN_THRESHOLD_FOR_METRICS,
      String.empty_append, String.length_mk, List.length_replicate]
    norm_num
  · intro heq
    have h1 : (calculateBenchmarkMetrics
        { startTime := 0, firstTokenTime := some 0, timeToHundredTokens := some 0,
          tokenCount := 100, fullResponse := String.mk (List.replicate 400 'x') } 10).throughputFirst100 = none := by
      simp [calculateBenchmarkMetrics, jsTruthyNum]
    rw [heq] at h1
    simp [specFinalize] at h1

/-- C4 (amended): `calculateBenchmarkMetrics` at an `endTime` no earlier than
the start returns: ttft `firstTokenTime − startTime` when a first token was
recorded at a nonzero timestamp and `endTime − startTime` otherwise (JS
truthiness treats a recorded `0` as unrecorded); total latency
`endTime − startTime`; tokens-per-second `tokenCount / totalLatencySeconds`,
`0` when `tokenCount` or the latency is zero; throughput-for-first-100
`100 / (timeToHundredTokens in seconds)` when a nonzero `timeToHundredTokens`
was recorded and `none` otherwise (also when the recorded value is exactly
`0`); and with no recorded first token, ttft equals total latency. -/
theorem calculateBenchmarkMetrics_spec (metrics : StreamMetrics) (endTime : ℚ)
    (h : metrics.startTime ≤ endTime) :
    (calculateBenchmarkMetrics metrics endTime).ttftMs =
      (match metrics.firstTokenTime with
       | some t => if t ≠ 0 then t - metrics.startTime else endTime - metrics.startTime
       | none => endTime - metrics.startTime) ∧
    (calculateBenchmarkMetrics metrics endTime).totalLatencyMs =
      endTime - metrics.startTime ∧
    (calculateBenchmarkMetrics metrics endTime).tokensPerSecond =
      (if metrics.tokenCount ≠ 0 ∧ endTime - metrics.startTime ≠ 0 then
        (metrics.tokenCount : ℚ) / ((endTime - metrics.startTime) / 1000)
      else 0) ∧
    (calculateBenchmarkMetrics metrics endTime).throughputFirst100 =
      (match metrics.timeToHundredTokens with
       | some t => if t ≠ 0 then some ((100 : ℚ) / (t / 1000)) else none
       | none => none) ∧
    (metrics.firstTokenTime = none →
      (calculateBenchmarkMetrics metrics endTime).ttftMs =
        (calculateBenchmarkMetrics metrics endTime).totalLatencyMs) := by
  have hlat : (0 : ℚ) ≤ endTime - metrics.startTime := by linarith
  refine ⟨?_, ?_, ?_, ?_, ?_⟩
  · cases hft : metrics.firstTokenTime with
    | none => simp [calculateBenchmarkMetrics, jsTruthyNum, hft]
    | some t =>
      by_cases ht : t = 0 <;>
        simp [calculateBenchmarkMetrics, jsTruthyNum, hft, ht]
  · simp [calculateBenchmarkMetrics]
  · have hiff : (0 < endTime - metrics.startTime) ↔ (endTime - metrics.startTime ≠ 0) :=
      ⟨ne_of_gt, fun hne => lt_of_le_of_ne hlat (Ne.symm hne)⟩
    simp only [calculateBenchmarkMetrics, Nat.pos_iff_ne_zero, hiff]
    by_cases hc : metrics.tokenCount ≠ 0 ∧ endTime - metrics.startTime ≠ 0
    · simp only [if_pos hc]
      rw [div_div_eq_mul_div, div_mul_eq_mul_div]
    · simp only [if_neg hc]
  · cases h100 : metrics.timeToHundredTokens with
    | none => simp [calculateBenchmarkMetrics, jsTruthyNum, h100]
    | some t =>
      by_cases ht : t = 0 <;>
        simp [calculateBenchmarkMetrics, jsTruthyNum, h100, ht, TOKEN_THRESHOLD_FOR_METRICS]
  · intro hft
    simp [calculateBenchmarkMetrics, jsTruthyNum, hft]

/-- C4 (witness): the amended contract evaluated at a concrete reachable
state, with its time hypothesis discharged. -/
theorem calculateBenchmarkMetrics_spec_witness :
    (calculateBenchmarkMetrics
        { startTime := 2, firstTokenTime := some 3, timeToHundredTokens := some 50,
          tokenCount := 120, fullResponse := "" } 10).ttftMs =
      (match (some (3 : ℚ) : Option ℚ) with
       | some t => if t ≠ 0 then t - 2 else 10 - 2
       | none => (10 : ℚ) - 2) ∧
    (calculateBenchmarkMetrics
        { startTime := 2, firstTokenTime := some 3, timeToHundredTokens := some 50,
          tokenCount := 120, fullResponse := "" } 10).totalLatencyMs = 10 - 2 ∧
    (calculateBenchmarkMetrics
        { startTime := 2, firstTokenTime := some 3, timeToHundredTokens := some 50,
          tokenCount := 120, fullResponse := "" } 10).tokensPerSecond =
      (if (120 : ℕ) ≠ 0 ∧ (10 : ℚ) - 2 ≠ 0 then ((120 : ℕ) : ℚ) / (((10 : ℚ) - 2) / 1000)
       else 0) ∧
    (calculateBenchmarkMetrics
        { startTime := 2, firstTokenTime := some 3, timeToHundredTokens := some 50,
          tokenCount := 120, fullResponse := "" } 10).throughputFirst100 =
      (match (some (50 : ℚ) : Option ℚ) with
       | some t => if t ≠ 0 then some ((100 : ℚ) / (t / 1000)) else none
       | none => none) ∧
    ((some (3 : ℚ) : Option ℚ) = none →
      (calculateBenchmarkMetrics
          { startTime := 2, firstTokenTime := some 3, timeToHundredTokens := some 50,
            tokenCount := 120, fullResponse := "" } 10).ttftMs =
        (calculateBenchmarkMetrics
            { startTime := 2, firstTokenTime := some 3, timeToHundredTokens := some 50,
              tokenCount := 120, fullResponse := "" } 10).totalLatencyMs) :=
  calculateBenchmarkMetrics_spec
    { startTime := 2, firstTokenTime := some 3, timeToHundredTokens := some 50,
      tokenCount := 120, fullResponse := "" } 10 (by norm_num)

theorem updateMetrics_firstTokenTime (m : StreamMetrics) (c : String) (n : ℚ) :
    (updateMetrics m c n).firstTokenTime = some (m.firstTokenTime.getD n) := by
  cases hft : m.firstTokenTime <;> simp [updateMetrics, hft] <;> split <;> simp

theorem updateMetrics_tokenCount (m : StreamMetrics) (c : String) (n : ℚ) :
    (updateMetrics m c n).tokenCount = estimateTokenCount (m.fullResponse ++ c) := by
  cases hft : m.firstTokenTime <;> simp [updateMetrics, hft] <;> split <;> simp

theorem updateMetrics_t100_stable (m : StreamMetrics) (c : String) (n : ℚ) (v : ℚ)
    (h : m.timeToHundredTokens = some v) :
    (updateMetrics m c n).timeToHundredTokens = some v := by
  cases hft : m.firstTokenTime <;> simp [updateMetrics, hft, h]

theorem runUpdates_append (m : StreamMetrics) (l₁ l₂ : List (String × ℚ)) :
    runUpdates m (l₁ ++ l₂) = runUpdates (runUpdates m l₁) l₂ :=
  List.foldl_append ..

theorem runUpdates_firstTokenTime_some (m : StreamMetrics) (chunks : List (String × ℚ))
    (v : ℚ) (h : m.firstTokenTime = some v) :
    (runUpdates m chunks).firstTokenTime = some v := by
  induction chunks generalizing m with
  | nil => simpa [runUpdates] using h
  | cons c rest ih =>
    have hstep : runUpdates m (c :: rest) = runUpdates (updateMetrics m c.1 c.2) rest := rfl
    rw [hstep]
    exact ih _ (by rw [updateMetrics_firstTokenTime, h, Option.getD])

theorem runUpdates_t100_stable (m : StreamMetrics) (chunks : List (String × ℚ))
    (v : ℚ) (h : m.timeToHundredTokens = some v) :
    (runUpdates m chunks).timeToHundredTokens = some v := by
  induction chunks generalizing m with
  | nil => simpa [runUpdates] using h
  | cons c rest ih =>
    have hstep : runUpdates m (c :: rest) = runUpdates (updateMetrics m c.1 c.2) rest := rfl
    rw [hstep]
    exact ih _ (updateMetrics_t100_stable m c.1 c.2 v h)

theorem estimateTokenCount_le_append (s c : String) :
    estimateTokenCount s ≤ estimateTokenCount (s ++ c) := by
  simp only [estimateTokenCount, String.length_append]
  exact Nat.div_le_div_right (by omega)

theorem metricsInv_create (t0 : ℚ) : MetricsInv (createStreamMetrics t0) := by
  constructor
  · norm_num [createStreamMetrics, estimateTokenCount, CHARS_PER_TOKEN]
  · intro hne
    simp [createStreamMetrics] at hne

theorem metricsInv_update (m : StreamMetrics) (c : String) (n : ℚ)
    (h : MetricsInv m) : MetricsInv (updateMetrics m c n) := by
  obtain ⟨h1, h2⟩ := h
  have hmono := estimateTokenCount_le_append m.fullResponse c
  constructor
  · rw [updateMetrics_tokenCount]
    cases hft : m.firstTokenTime <;> simp [updateMetrics, hft] <;> split <;> simp
  · intro hne
    rw [updateMetrics_tokenCount]
    rcases h100 : m.timeToHundredTokens with _ | v
    · by_cases hcond : TOKEN_THRESHOLD_FOR_METRICS ≤ estimateTokenCount (m.fullResponse ++ c)
      · exact hcond
      · refine absurd ?_ hne
        cases hft : m.firstTokenTime <;> simp [updateMetrics, hft, h100, hcond]
    · exact le_trans (h2 (by simp [h100])) (le_trans (le_of_eq h1) hmono)

theorem metricsInv_runUpdates (m : StreamMetrics) (chunks : List (String × ℚ))
    (h : MetricsInv m) : MetricsInv (runUpdates m chunks) := by
  induction chunks generalizing m with
  | nil => simpa [runUpdates] using h
  | cons c rest ih => exact ih _ (metricsInv_update m c.1 c.2 h)

theorem runUpdates_tokenCount_mono (m : StreamMetrics) (chunks : List (String × ℚ))
    (h : MetricsInv m) : m.tokenCount ≤ (runUpdates m chunks).tokenCount := by
  induction chunks generalizing m with
  | nil => simp [runUpdates]
  | cons c rest ih =>
    have hstep : runUpdates m (c :: rest) = runUpdates (updateMetrics m c.1 c.2) rest := rfl
    rw [hstep]
    refine le_trans ?_ (ih _ (metricsInv_update m c.1 c.2 h))
    rw [updateMetrics_tokenCount, h.1]
    exact estimateTokenCount_le_append m.fullResponse c.1

/-- C5 (counterexample): the claim that `firstTokenTime` is assigned on the
first non-empty content chunk is false on the code: `updateMetrics` does not
inspect the content, so a single empty-string chunk at time `5` already
assigns `firstTokenTime := 5`, while the claim predicts it stays unassigned
(no non-empty chunk ever arrived). -/
theorem updateMetrics_empty_chunk_sets_first :
    ¬ (∀ (t0 : ℚ) (chunks : List (String × ℚ)),
        (runUpdates (createStreamMetrics t0) chunks).firstTokenTime =
          ((chunks.find? fun c => c.1 != "").map Prod.snd)) := by
  intro h
  have h5 := h 0 [("", 5)]
  simp [runUpdates, updateMetrics, createStreamMetrics, List.find?,
    estimateTokenCount, CHARS_PER_TOKEN, TOKEN_THRESHOLD_FOR_METRICS] at h5

/-- C5 (amended): over every update sequence applied to a fresh accumulator,
`firstTokenTime` is assigned at most once, on the first update call (whether
or not its chunk is empty — its value is the first update's timestamp, `none`
when there is no update); `timeToHundredTokens` is never reset once assigned,
and at every point where it is assigned the estimated token count is at least
the 100-token threshold; and `tokenCount` is monotonically non-decreasing
across updates. -/
theorem updateMetrics_invariants (t0 : ℚ) (chunks : List (String × ℚ)) :
    (runUpdates (createStreamMetrics t0) chunks).firstTokenTime =
        chunks.head?.map Prod.snd ∧
    (∀ l₁ l₂ v, chunks = l₁ ++ l₂ →
      (runUpdates (createStreamMetrics t0) l₁).timeToHundredTokens = some v →
      (runUpdates (createStreamMetrics t0) chunks).timeToHundredTokens = some v) ∧
    (∀ l₁ l₂, chunks = l₁ ++ l₂ →
      (runUpdates (createStreamMetrics t0) l₁).timeToHundredTokens ≠ none →
      TOKEN_THRESHOLD_FOR_METRICS ≤ (runUpdates (createStreamMetrics t0) l₁).tokenCount) ∧
    (∀ l₁ l₂, chunks = l₁ ++ l₂ →
      (runUpdates (createStreamMetrics t0) l₁).tokenCount ≤
        (runUpdates (createStreamMetrics t0) chunks).tokenCount) := by
  refine ⟨?_, ?_, ?_, ?_⟩
  · cases chunks with
    | nil => simp [runUpdates, createStreamMetrics]
    | cons c rest =>
      have hstep : runUpdates (createStreamMetrics t0) (c :: rest) =
          runUpdates (updateMetrics (createStreamMetrics t0) c.1 c.2) rest := rfl
      rw [hstep]
      rw [runUpdates_firstTokenTime_some _ _ c.2
        (by rw [updateMetrics_firstTokenTime]; simp [createStreamMetrics])]
      simp
  · intro l₁ l₂ v hsplit h100
    subst hsplit
    rw [runUpdates_append]
    exact runUpdates_t100_stable _ _ _ h100
  · intro l₁ l₂ _ hne
    exact (metricsInv_runUpdates _ l₁ (metricsInv_create t0)).2 hne
  · intro l₁ l₂ hsplit
    subst hsplit
    rw [runUpdates_append]
    exact runUpdates_tokenCount_mono _ _ (metricsInv_runUpdates _ l₁ (metricsInv_create t0))

/-- C5 (witness): the amended invariants evaluated on a concrete two-update
sequence, with the prefix-split hypotheses discharged. -/
theorem updateMetrics_invariants_witness :
    (runUpdates (createStreamMetrics 0) [("abcd", 3), ("e", 4)]).firstTokenTime = some 3 ∧
    (runUpdates (createStreamMetrics 0) [("abcd", 3)]).tokenCount ≤
      (runUpdates (createStreamMetrics 0) [("abcd", 3), ("e", 4)]).tokenCount :=
  ⟨by simpa using (updateMetrics_invariants 0 [("abcd", 3), ("e", 4)]).1,
    (updateMetrics_invariants 0 [("abcd", 3), ("e", 4)]).2.2.2 [("abcd", 3)] [("e", 4)] rfl⟩

/-- C6: `parseSSELine` is a total function (it returns `none` rather than
raising on every input): the `data: [DONE]` sentinel yields no content; every
line whose payload after the `data: ` prefix fails to parse as JSON yields no
content; a line without the `data: ` prefix yields `none`; and the line
`data: {"choices":[{"delta":{"content":"hi"}}]}` yields the string `"hi"`. -/
theorem parseSSELine_spec :
    parseSSELine "data: [DONE]" = none ∧
    (∀ line : String,
      jsonParse (String.mk ((jsTrim line).data.drop 6)) = none →
      parseSSELine line = none) ∧
    parseSSELine "data: \x7bnot json" = none ∧
    parseSSELine "no prefix here" = none ∧
    parseSSELine "data: \x7b\"choices\":[\x7b\"delta\":\x7b\"content\":\"hi\"\x7d\x7d]\x7d" =
      some (Json.str "hi") := by
  refine ⟨by rfl, ?_, by rfl, by rfl, by rfl⟩
  intro line h
  simp [parseSSELine, h]

/-- C6 (witness): the malformed-JSON clause applied at the concrete line
`data: oops`, whose payload `oops` fails to parse. -/
theorem parseSSELine_spec_witness :
    jsonParse (String.mk ((jsTrim "data: oops").data.drop 6)) = none ∧
    parseSSELine "data: oops" = none :=
  ⟨by rfl, parseSSELine_spec.2.1 "data: oops" (by rfl)⟩

theorem resultsLE_trans (a b c : BenchmarkResult) (hab : resultsLE a b)
    (hbc : resultsLE b c) : resultsLE a c := by
  unfold resultsLE at *
  by_cases ha : jsTruthyStr a.error <;> by_cases hb : jsTruthyStr b.error <;>
    by_cases hc : jsTruthyStr c.error <;> simp_all <;> exact le_trans hab hbc

theorem resultsLE_total (a b : BenchmarkResult) : resultsLE a b || resultsLE b a := by
  unfold resultsLE
  by_cases ha : jsTruthyStr a.error <;> by_cases hb : jsTruthyStr b.error <;>
    simp_all [le_total]

/-- C3 (counterexample): the claim that every entry carrying an error appears
after all error-free entries is false on the code: the comparator tests
`a.error` with JS string truthiness, so an entry whose error field is present
but empty counts as error-free and is ordered by `ttft_ms` among the
successes.  Concretely, sorting an empty-string-error entry with the smaller
`ttft_ms` ahead of an error-free entry leaves the error-carrying entry
first. -/
theorem sortResults_presence_claim_false :
    sortResults [sampleEmptyErr "a" 3, sampleOk "b" 5] =
      [sampleEmptyErr "a" 3, sampleOk "b" 5] ∧
    (sampleEmptyErr "a" 3).error ≠ none ∧
    (sampleOk "b" 5).error = none := by
  refine ⟨?_, by simp [sampleEmptyErr], by simp [sampleOk]⟩
  apply List.mergeSort_of_sorted
  refine List.Pairwise.cons ?_ (List.pairwise_singleton _ _)
  intro x hx
  rw [List.mem_singleton] at hx
  subst hx
  simp [resultsLE, jsTruthyStr, sampleEmptyErr, sampleOk]
  norm_num

/-- C3 (amended): the orchestrator's sort, applied to any collected result
list, returns a permutation of it that is ascending by `ttft_ms` among
entries without a truthy error (JS string truthiness: an absent or
empty-string error both count as error-free); every entry carrying a
non-empty error message comes after every such error-free entry regardless of
its numeric fields; and the sort is stable: any two entries whose comparison
does not order them strictly (in particular equal `ttft_ms` within the same
truthiness class) keep their relative input order. -/
theorem sortResults_spec (rs : List BenchmarkResult) :
    (sortResults rs).Perm rs ∧
    List.Pairwise (fun a b =>
      (jsTruthyStr a.error = false → jsTruthyStr b.error = false →
        a.ttft_ms ≤ b.ttft_ms) ∧
      (jsTruthyStr a.error = true → jsTruthyStr b.error = true)) (sortResults rs) ∧
    (∀ a b, resultsLE a b = true → List.Sublist [a, b] rs →
      List.Sublist [a, b] (sortResults rs)) := by
  refine ⟨List.mergeSort_perm rs _, ?_, ?_⟩
  · refine (List.sorted_mergeSort resultsLE_trans resultsLE_total rs).imp ?_
    intro a b hab
    constructor
    · intro ha hb
      simpa [resultsLE, ha, hb] using hab
    · intro ha
      by_cases hb : jsTruthyStr b.error
      · exact hb
      · simp [resultsLE, ha, hb] at hab
  · intro a b hab hsub
    exact List.pair_sublist_mergeSort resultsLE_trans resultsLE_total hab hsub

/-- C3 (witness): stability evaluated on a concrete list: two error-free
entries with equal `ttft_ms` keep their input order through the sort. -/
theorem sortResults_spec_witness :
    List.Sublist [sampleOk "a" 5, sampleOk "b" 5]
      (sortResults [sampleErr "x" 0, sampleOk "a" 5, sampleOk "b" 5]) :=
  (sortResults_spec [sampleErr "x" 0, sampleOk "a" 5, sampleOk "b" 5]).2.2
    (sampleOk "a" 5) (sampleOk "b" 5)
    (by simp [resultsLE, jsTruthyStr, sampleOk])
    (List.Sublist.cons _ (List.Sublist.refl _))

theorem benchmarkPOST_ok (prompt : String) (hp : prompt ≠ "") (mt : Option ℚ)
    (provs : Option (List String)) (f : String → Except String BenchmarkResult) :
    (benchmarkPOST (some prompt) mt provs f).response =
      .ok (sortResults ((selectedProvidersOf provs).map (benchmarkOne f)))
        prompt (jsNumOr mt MAX_TOKENS) := by
  simp [benchmarkPOST, jsTruthyStr, hp]

/-- C2: for a truthy prompt, the orchestrator returns exactly one
`BenchmarkResult` per requested provider identifier — the result list is a
permutation of the per-provider outcomes, one per requested identifier — and
the per-provider outcome for an unknown identifier, or for a sub-request that
throws, is an error-only result keyed by that identifier. -/
theorem benchmarkPOST_per_provider (prompt : String) (hp : prompt ≠ "")
    (mt : Option ℚ) (provs : Option (List String))
    (f : String → Except String BenchmarkResult) :
    (responseResults (benchmarkPOST (some prompt) mt provs f).response).length =
      (selectedProvidersOf provs).length ∧
    (responseResults (benchmarkPOST (some prompt) mt provs f).response).Perm
      ((selectedProvidersOf provs).map (benchmarkOne f)) ∧
    (∀ p, p ∉ PROVIDER_ENDPOINTS →
      (benchmarkOne f p).provider = p ∧
      (benchmarkOne f p).error = some ("Unknown provider: " ++ p)) ∧
    (∀ p e, f p = .error e → p ∈ PROVIDER_ENDPOINTS →
      (benchmarkOne f p).provider = p ∧ (benchmarkOne f p).error = some e) := by
  have hresp := benchmarkPOST_ok prompt hp mt provs f
  refine ⟨?_, ?_, ?_, ?_⟩
  · rw [hresp]
    simp only [responseResults, sortResults]
    rw [(List.mergeSort_perm _ resultsLE).length_eq, List.length_map]
  · rw [hresp]
    exact List.mergeSort_perm _ _
  · intro p hnotin
    simp [benchmarkOne, hnotin]
  · intro p e hf hin
    simp [benchmarkOne, hin, hf]

/-- C2 (witness): a concrete request with one known and one unknown provider,
every sub-request failing: two entries come back, the unknown identifier gets
an `Unknown provider` error entry and the known one an error entry carrying
the thrown message. -/
theorem benchmarkPOST_per_provider_witness :
    (responseResults (benchmarkPOST (some "hi") none (some ["cerebras", "bogus"])
        (fun _ => .error "down")).response).length = 2 ∧
    (benchmarkOne (fun _ => Except.error "down") "bogus").error =
      some ("Unknown provider: " ++ "bogus") ∧
    (benchmarkOne (fun _ => Except.error "down") "cerebras").error = some "down" :=
  ⟨by
    simpa [selectedProvidersOf] using
      (benchmarkPOST_per_provider "hi" (by decide) none (some ["cerebras", "bogus"])
        (fun _ => .error "down")).1,
   ((benchmarkPOST_per_provider "hi" (by decide) none (some ["cerebras", "bogus"])
      (fun _ => .error "down")).2.2.1 "bogus" (by decide)).2,
   ((benchmarkPOST_per_provider "hi" (by decide) none (some ["cerebras", "bogus"])
      (fun _ => .error "down")).2.2.2 "cerebras" "down" rfl (by decide)).2⟩

/-- C9: a present-but-empty `providers` array is treated exactly like an
absent one: the orchestrator benchmarks all known providers (`cerebras`,
`fireworks`, `groq`), so the result list has one entry per known provider
rather than zero entries. -/
theorem benchmarkPOST_empty_providers (prompt : String) (hp : prompt ≠ "")
    (mt : Option ℚ) (f : String → Except String BenchmarkResult) :
    benchmarkPOST (some prompt) mt (some []) f =
      benchmarkPOST (some prompt) mt none f ∧
    selectedProvidersOf (some []) = ["cerebras", "fireworks", "groq"] ∧
    (responseResults (benchmarkPOST (some prompt) mt (some []) f).response).length = 3 ∧
    (responseResults (benchmarkPOST (some prompt) mt (some []) f).response).Perm
      [benchmarkOne f "cerebras", benchmarkOne f "fireworks", benchmarkOne f "groq"] := by
  have hresp := benchmarkPOST_ok prompt hp mt (some []) f
  refine ⟨rfl, rfl, ?_, ?_⟩
  · rw [hresp]
    simp only [responseResults, sortResults]
    rw [(List.mergeSort_perm _ resultsLE).length_eq, List.length_map]
    rfl
  · rw [hresp]
    simp only [responseResults]
    have hmap : (selectedProvidersOf (some [])).map (benchmarkOne f) =
        [benchmarkOne f "cerebras", benchmarkOne f "fireworks", benchmarkOne f "groq"] := rfl
    rw [hmap]
    exact List.mergeSort_perm _ _

/-- C9 (witness): the empty-array behaviour evaluated with every provider
failing: still three entries, one per known provider. -/
theorem benchmarkPOST_empty_providers_witness :
    (responseResults (benchmarkPOST (some "hi") none (some [])
        (fun _ => .error "down")).response).length = 3 :=
  (benchmarkPOST_empty_providers "hi" (by decide) none (fun _ => .error "down")).2.2.1

theorem mockResult_provider (p : String) (fx : MockFixture) (rand : ℕ → ℚ) (k : ℕ) :
    (mockResult p fx rand k).1.provider = p := rfl

theorem mockResult_error (p : String) (fx : MockFixture) (rand : ℕ → ℚ) (k : ℕ) :
    (mockResult p fx rand k).1.error = none := rfl

theorem mockFold_providers (rand : ℕ → ℚ) (l : List String)
    (acc : List BenchmarkResult × ℕ) :
    ((l.foldl (mockStep rand) acc).1).map (fun r => r.provider) =
      acc.1.map (fun r => r.provider) ++
        l.filter (fun p => (MOCK_BENCHMARKS p).isSome) := by
  induction l generalizing acc with
  | nil => simp
  | cons p l ih =>
    rcases hfx : MOCK_BENCHMARKS p with _ | fx
    · rw [List.foldl_cons]
      show ((l.foldl (mockStep rand) (mockStep rand acc p)).1).map _ = _
      rw [show mockStep rand acc p = acc from by simp [mockStep, hfx]]
      rw [ih]
      simp [hfx]
    · rw [List.foldl_cons, ih]
      simp [mockStep, hfx, mockResult_provider]

theorem mockFold_error_none (rand : ℕ → ℚ) (l : List String)
    (acc : List BenchmarkResult × ℕ) (r : BenchmarkResult)
    (hr : r ∈ (l.foldl (mockStep rand) acc).1) : r ∈ acc.1 ∨ r.error = none := by
  induction l generalizing acc with
  | nil => exact Or.inl (by simpa using hr)
  | cons p l ih =>
    rw [List.foldl_cons] at hr
    rcases ih _ hr with hacc | hnone
    · rcases hfx : MOCK_BENCHMARKS p with _ | fx
      · simp [mockStep, hfx] at hacc
        exact Or.inl hacc
      · simp [mockStep, hfx] at hacc
        rcases hacc with hacc | hlast
        · exact Or.inl hacc
        · exact Or.inr (hlast ▸ mockResult_error p fx rand acc.2)
    · exact Or.inr hnone

/-- C10: the mock route silently skips every requested identifier that has no
mock fixture: the provider fields of the returned results are exactly (up to
the final sort) the requested identifiers that do have fixtures, so the list
can be shorter than the request and carries no entry — and in particular no
error entry, every mock result having `error` absent — for a skipped
identifier; the orchestrator by contrast gives every unknown identifier an
error entry. -/
theorem mockPOST_skips_missing_fixture (sel : Option (List String)) (rand : ℕ → ℚ) :
    ((mockPOST sel rand).map (fun r => r.provider)).Perm
      ((mockProvidersToTest sel).filter (fun p => (MOCK_BENCHMARKS p).isSome)) ∧
    (mockPOST sel rand).length =
      ((mockProvidersToTest sel).filter (fun p => (MOCK_BENCHMARKS p).isSome)).length ∧
    (∀ r, r ∈ mockPOST sel rand → r.error = none) ∧
    (∀ (f : String → Except String BenchmarkResult) (p : String),
      p ∉ PROVIDER_ENDPOINTS → (benchmarkOne f p).error.isSome) := by
  have hperm : (mockPOST sel rand).Perm
      ((mockProvidersToTest sel).foldl (mockStep rand) ([], 0)).1 :=
    List.mergeSort_perm _ _
  have hmap := mockFold_providers rand (mockProvidersToTest sel) ([], 0)
  simp only [List.map_nil, List.nil_append] at hmap
  have hpm := hperm.map (fun r => r.provider)
  rw [hmap] at hpm
  refine ⟨?_, ?_, ?_, ?_⟩
  · exact hpm
  · have h1 := hpm.length_eq
    rwa [List.length_map] at h1
  · intro r hr
    rcases mockFold_error_none rand (mockProvidersToTest sel) ([], 0) r
        (hperm.mem_iff.mp hr) with habs | hnone
    · simp at habs
    · exact hnone
  · intro f p hnotin
    simp [benchmarkOne, hnotin]

/-- C10 (witness): a concrete request naming one fixtured and one unknown
provider: the mock route returns as many entries as fixtured identifiers,
while the orchestrator's per-provider outcome for the unknown identifier is
an error entry. -/
theorem mockPOST_skips_missing_fixture_witness :
    (benchmarkOne (fun _ => Except.error "down") "nope").error.isSome ∧
    (mockPOST (some ["cerebras", "nope"]) (fun _ => 1/2)).length =
      ((mockProvidersToTest (some ["cerebras", "nope"])).filter
        (fun p => (MOCK_BENCHMARKS p).isSome)).length :=
  ⟨(mockPOST_skips_missing_fixture (some ["cerebras", "nope"]) (fun _ => 1/2)).2.2.2
      (fun _ => Except.error "down") "nope" (by decide),
   (mockPOST_skips_missing_fixture (some ["cerebras", "nope"]) (fun _ => 1/2)).2.1⟩

/-- C7: on a run whose steps `0..k-1` succeed and whose step `k` is the first
to fail, the emitted event stream is exactly the `running`/`complete` pairs
for the earlier steps, then `running` and `error` for step `k` (1-based step
numbers on the wire), then one terminal event with `complete: true` and
`has_error: true`, with no event for any later step; and on every run —
success or failure — the output channel is closed exactly once, after the
terminal event, which is always last. -/
theorem runRace_first_error (call : ℕ → String → Except String String)
    (lat : ℕ → ℤ) (company : String) (contents : ℕ → String) (k : ℕ) (msg : String)
    (hk : k < 5)
    (hok : ∀ j, j < k → call j (chainPrompt company contents j) = .ok (contents j))
    (herr : call k (chainPrompt company contents k) = .error msg) :
    (runRace call lat company).1 =
      ((List.range k).map fun j =>
        [RaceEvent.running (j + 1) (stepName j),
         RaceEvent.complete (j + 1) (stepName j) (lat j) (outputPreview (contents j))]).flatten ++
      [RaceEvent.running (k + 1) (stepName k), RaceEvent.error (k + 1) (stepName k) msg,
       RaceEvent.terminal (((List.range k).map lat).sum) true] ∧
    (runRace call lat company).2 = 1 ∧
    (∀ (call2 : ℕ → String → Except String String) (lat2 : ℕ → ℤ) (company2 : String),
      (runRace call2 lat2 company2).2 = 1 ∧
      ∃ tot he, ((runRace call2 lat2 company2).1).getLast? =
        some (RaceEvent.terminal tot he)) := by
  refine ⟨?_, ?_, ?_⟩
  · interval_cases k
    · have he := herr
      simp [chainPrompt] at he
      rw [show (List.range 0 : List Nat) = [] from rfl]
      simp [runRace, raceGo, he]
    · have h0 := hok 0 (by omega)
      have he := herr
      simp [chainPrompt] at h0 he
      rw [show (List.range 1 : List Nat) = [0] from rfl]
      simp [runRace, raceGo, h0, he]
    · have h0 := hok 0 (by omega)
      have h1 := hok 1 (by omega)
      have he := herr
      simp [chainPrompt] at h0 h1 he
      rw [show (List.range 2 : List Nat) = [0, 1] from rfl]
      simp [runRace, raceGo, h0, h1, he]
    · have h0 := hok 0 (by omega)
      have h1 := hok 1 (by omega)
      have h2 := hok 2 (by omega)
      have he := herr
      simp [chainPrompt] at h0 h1 h2 he
      rw [show (List.range 3 : List Nat) = [0, 1, 2] from rfl]
      simp [runRace, raceGo, h0, h1, h2, he]
      ring
    · have h0 := hok 0 (by omega)
      have h1 := hok 1 (by omega)
      have h2 := hok 2 (by omega)
      have h3 := hok 3 (by omega)
      have he := herr
      simp [chainPrompt] at h0 h1 h2 h3 he
      rw [show (List.range 4 : List Nat) = [0, 1, 2, 3] from rfl]
      simp [runRace, raceGo, h0, h1, h2, h3, he]
      ring
  · rcases hgo : raceGo call lat company (List.range 5) company 0 with ⟨evs, tot, he⟩
    simp [runRace, hgo]
  · intro call2 lat2 company2
    rcases hgo : raceGo call2 lat2 company2 (List.range 5) company2 0 with ⟨evs, tot, he⟩
    refine ⟨by simp [runRace, hgo], tot, he, ?_⟩
    simp [runRace, hgo]

/-- C7 (witness): a concrete race whose second step throws: the stream is the
first step\x27s pair, the second step\x27s `running` and `error`, then the
error-flagged terminal event, and the channel is closed once. -/
theorem runRace_first_error_witness :
    (runRace (fun i _ => if i = 1 then Except.error "boom" else Except.ok "out")
        (fun _ => 3) "Acme").1 =
      [RaceEvent.running 1 "Research", RaceEvent.complete 1 "Research" 3 "out",
       RaceEvent.running 2 "Summarize", RaceEvent.error 2 "Summarize" "boom",
       RaceEvent.terminal 3 true] ∧
    (runRace (fun i _ => if i = 1 then Except.error "boom" else Except.ok "out")
        (fun _ => 3) "Acme").2 = 1 := by
  have h := runRace_first_error
    (fun i _ => if i = 1 then Except.error "boom" else Except.ok "out")
    (fun _ => 3) "Acme" (fun _ => "out") 1 "boom" (by omega)
    (fun j hj => by interval_cases j; rfl) rfl
  refine ⟨?_, h.2.1⟩
  rw [h.1]
  decide


end Bench
